import Mathlib

/-!
Verification development for the trmnl-go virtual TRMNL client.

The definitions below are a shallow embedding of the Go sources:
  - api/client.go        (PercentageToVoltage, NewClient, FetchDisplay, FetchSetup)
  - display/image_utils.go and display/window.go
                         (rotateImage, invertImage, applyImageTransformations)
  - app.go               (fetchAndDisplay, rotateDisplay, the capacity-one
                          manual-trigger channels of runGUIApp)

Modelling conventions:
  - Go float64 arithmetic on the battery curve is modelled by exact rational
    arithmetic on the decimal literals of the source.
  - HTTP and the JSON decoder are environment inputs: a fetch operation is a
    pure function of the outcome handed to it by the transport.  A JSON field
    that carries the omitempty convention is an Option; the Go decoder turns
    an absent field into the zero value, written Option.getD 0 here.
  - Images are pixel grids: a width, a height and a total pixel function;
    channels are Nat values, well-formed when at most 255 (Go uint8).
-/

namespace Trmnl

/-! ## api/client.go : battery curve -/

/-- Source constant MinBatteryVoltage = 3.0 from api/client.go. -/
def MinBatteryVoltage : ℚ := 3.0

/-- Source constant MaxBatteryVoltage = 4.08 from api/client.go. -/
def MaxBatteryVoltage : ℚ := 4.08

/-- Embedding of PercentageToVoltage from api/client.go.  The Go function is a
sequence of early returns; each early return becomes an if-branch, in source
order, with the source literals kept exactly (float64 modelled by ℚ). -/
def PercentageToVoltage (percentage : ℚ) : ℚ :=
  if 100 ≤ percentage then MaxBatteryVoltage
  else if 95 ≤ percentage then 4.06
  else if 90 ≤ percentage then 4.02
  else if percentage ≤ 1 then MinBatteryVoltage
  else if 1 < percentage ∧ percentage ≤ 83 then MinBatteryVoltage + percentage * 0.012
  else if 83 < percentage ∧ percentage < 90 then 3.996 + (percentage - 83) * 0.003429
  else MinBatteryVoltage

theorem pv_full (x : ℚ) (h : 100 ≤ x) : PercentageToVoltage x = MaxBatteryVoltage := by
  unfold PercentageToVoltage
  rw [if_pos h]

theorem pv_flat406 (x : ℚ) (h1 : 95 ≤ x) (h2 : x < 100) :
    PercentageToVoltage x = 4.06 := by
  unfold PercentageToVoltage
  rw [if_neg (by linarith), if_pos h1]

theorem pv_flat402 (x : ℚ) (h1 : 90 ≤ x) (h2 : x < 95) :
    PercentageToVoltage x = 4.02 := by
  unfold PercentageToVoltage
  rw [if_neg (by linarith), if_neg (by linarith), if_pos h1]

theorem pv_le1 (x : ℚ) (h : x ≤ 1) : PercentageToVoltage x = MinBatteryVoltage := by
  unfold PercentageToVoltage
  rw [if_neg (by linarith), if_neg (by linarith), if_neg (by linarith), if_pos h]

theorem pv_linear (x : ℚ) (h1 : 1 < x) (h2 : x ≤ 83) :
    PercentageToVoltage x = MinBatteryVoltage + x * 0.012 := by
  unfold PercentageToVoltage
  rw [if_neg (by linarith), if_neg (by linarith), if_neg (by linarith),
    if_neg (by linarith), if_pos ⟨h1, h2⟩]

theorem pv_band (x : ℚ) (h1 : 83 < x) (h2 : x < 90) :
    PercentageToVoltage x = 3.996 + (x - 83) * 0.003429 := by
  unfold PercentageToVoltage
  rw [if_neg (by linarith), if_neg (by linarith), if_neg (by linarith),
    if_neg (by linarith), if_neg (by rintro ⟨a, b⟩; linarith), if_pos ⟨h1, h2⟩]

theorem pv_region (x : ℚ) :
    x ≤ 1 ∨ (1 < x ∧ x ≤ 83) ∨ (83 < x ∧ x < 90) ∨ (90 ≤ x ∧ x < 95) ∨
      (95 ≤ x ∧ x < 100) ∨ 100 ≤ x := by
  rcases le_or_lt x 1 with h1 | h1
  · exact Or.inl h1
  rcases le_or_lt x 83 with h2 | h2
  · exact Or.inr (Or.inl ⟨h1, h2⟩)
  rcases lt_or_le x 90 with h3 | h3
  · exact Or.inr (Or.inr (Or.inl ⟨h2, h3⟩))
  rcases lt_or_le x 95 with h4 | h4
  · exact Or.inr (Or.inr (Or.inr (Or.inl ⟨h3, h4⟩)))
  rcases lt_or_le x 100 with h5 | h5
  · exact Or.inr (Or.inr (Or.inr (Or.inr (Or.inl ⟨h4, h5⟩))))
  · exact Or.inr (Or.inr (Or.inr (Or.inr (Or.inr h5))))

/-- Claim C3, counterexample.  The claim asserts PercentageToVoltage is
non-decreasing over the whole interval [0, 100].  The code disagrees: inside the
83-90 band the curve reaches 3.996 + (x - 83) * 0.003429, which exceeds the
value 4.02 taken at 90, once x passes 102869/1143 = 89.99912...; at the
concrete input x = 89.9995 the function returns 4.0200012855 and then drops
to 4.02 at 90. -/
theorem battery_curve_not_monotone :
    ¬ (∀ x y : ℚ, 0 ≤ x → x ≤ y → y ≤ 100 →
        PercentageToVoltage x ≤ PercentageToVoltage y) := by
  intro h
  have hx := pv_band (179999 / 2000) (by norm_num) (by norm_num)
  have hy := pv_flat402 90 (by norm_num) (by norm_num)
  have := h (179999 / 2000) 90 (by norm_num) (by norm_num) (by norm_num)
  rw [hx, hy] at this
  norm_num at this

set_option maxHeartbeats 3200000 in
/-- Claim C3, amended.  The three sample equalities hold exactly, and the
function is non-decreasing on [0, 100] for every pair x ≤ y except those with
x in the final sliver (102869/1143, 90) of the 83-90 band and y in [90, 95),
where the band value slightly exceeds the flat 4.02 value. -/
theorem battery_curve_samples_and_monotone :
    PercentageToVoltage 100 = 4.08 ∧
    PercentageToVoltage 0 = 3.0 ∧
    PercentageToVoltage 50 = 3.6 ∧
    (∀ x y : ℚ, 0 ≤ x → x ≤ y → y ≤ 100 →
      (x ≤ 102869 / 1143 ∨ 90 ≤ x ∨ y < 90 ∨ 95 ≤ y) →
      PercentageToVoltage x ≤ PercentageToVoltage y) := by
  refine ⟨?_, ?_, ?_, ?_⟩
  · rw [pv_full 100 (by norm_num)]; norm_num [MaxBatteryVoltage]
  · rw [pv_le1 0 (by norm_num)]; norm_num [MinBatteryVoltage]
  · rw [pv_linear 50 (by norm_num) (by norm_num)]; norm_num [MinBatteryVoltage]
  intro x y hx hxy hy hexc
  have Hx := pv_region x
  have Hy := pv_region y
  rcases hexc with h | h | h | h <;>
    rcases Hx with hx1 | ⟨hx1, hx2⟩ | ⟨hx1, hx2⟩ | ⟨hx1, hx2⟩ | ⟨hx1, hx2⟩ | hx1 <;>
    rcases Hy with hy1 | ⟨hy1, hy2⟩ | ⟨hy1, hy2⟩ | ⟨hy1, hy2⟩ | ⟨hy1, hy2⟩ | hy1 <;>
    first
    | linarith
    | ((first
        | rw [pv_le1 x hx1]
        | rw [pv_linear x hx1 hx2]
        | rw [pv_band x hx1 hx2]
        | rw [pv_flat402 x hx1 hx2]
        | rw [pv_flat406 x hx1 hx2]
        | rw [pv_full x hx1])
       (first
        | rw [pv_le1 y hy1]
        | rw [pv_linear y hy1 hy2]
        | rw [pv_band y hy1 hy2]
        | rw [pv_flat402 y hy1 hy2]
        | rw [pv_flat406 y hy1 hy2]
        | rw [pv_full y hy1])
       all_goals ((try simp only [MinBatteryVoltage, MaxBatteryVoltage]); linarith))

/-- Claim C3, witness for the amended monotonicity part. -/
theorem battery_curve_monotone_witness :
    PercentageToVoltage 50 ≤ PercentageToVoltage 83 :=
  battery_curve_samples_and_monotone.2.2.2 50 83 (by norm_num) (by norm_num)
    (by norm_num) (Or.inl (by norm_num))

/-- Claim C10.  For every rational input, also below 0 and above 100,
PercentageToVoltage stays inside the closed interval [3.0, 4.08]. -/
theorem battery_curve_range (x : ℚ) :
    MinBatteryVoltage ≤ PercentageToVoltage x ∧
      PercentageToVoltage x ≤ MaxBatteryVoltage := by
  rcases pv_region x with h1 | ⟨h1, h2⟩ | ⟨h1, h2⟩ | ⟨h1, h2⟩ | ⟨h1, h2⟩ | h1
  · rw [pv_le1 x h1]; norm_num [MinBatteryVoltage, MaxBatteryVoltage]
  · rw [pv_linear x h1 h2]
    constructor <;> (norm_num [MinBatteryVoltage, MaxBatteryVoltage]; linarith)
  · rw [pv_band x h1 h2]
    constructor <;> (norm_num [MinBatteryVoltage, MaxBatteryVoltage]; linarith)
  · rw [pv_flat402 x h1 h2]; norm_num [MinBatteryVoltage, MaxBatteryVoltage]
  · rw [pv_flat406 x h1 h2]; norm_num [MinBatteryVoltage, MaxBatteryVoltage]
  · rw [pv_full x h1]; norm_num [MinBatteryVoltage, MaxBatteryVoltage]

/-! ## display/image_utils.go and display/window.go : image model -/

/-- One 8-bit RGBA pixel (the backing store of a Go image.RGBA).  Channels are
Nat values; well-formed pixels keep every channel at most 255. -/
structure Pixel where
  r : Nat
  g : Nat
  b : Nat
  a : Nat
deriving DecidableEq, Repr

/-- A channel fits in a Go uint8. -/
def Pixel.wf (p : Pixel) : Prop :=
  p.r ≤ 255 ∧ p.g ≤ 255 ∧ p.b ≤ 255 ∧ p.a ≤ 255

instance (p : Pixel) : Decidable p.wf := by
  unfold Pixel.wf; infer_instance

/-- A zero-origin pixel grid: the Go images handled by the display package
(decoded images and freshly allocated image.NewRGBA canvases).  The pixel
function is total; only the values at coordinates x < width, y < height are
meaningful. -/
structure Image where
  width : Nat
  height : Nat
  pix : Nat → Nat → Pixel

/-- Embedding of rotateImage from display/image_utils.go (identical copy in
display/window.go).  The Go loops store At(x, y) into the rotated canvas:
  90:  rotated.Set(height-1-y, x,       At(x, y))
  180: rotated.Set(width-1-x, height-1-y, At(x, y))
  270: rotated.Set(y,         width-1-x, At(x, y))
and any other angle returns the image unchanged.  Solving each store map for
the destination coordinates gives the reader functions below; the claim
theorems restate the store direction literally. -/
def rotateImage (img : Image) (degrees : Int) : Image :=
  if degrees = 90 then
    { width := img.height, height := img.width,
      pix := fun x y => img.pix y (img.height - 1 - x) }
  else if degrees = 180 then
    { width := img.width, height := img.height,
      pix := fun x y => img.pix (img.width - 1 - x) (img.height - 1 - y) }
  else if degrees = 270 then
    { width := img.height, height := img.width,
      pix := fun x y => img.pix (img.width - 1 - y) x }
  else img

/-- Per-pixel inversion from invertImage: each RGB channel becomes 255 minus
the channel, alpha is kept.  (The Go 16-bit round trip r>>8 of r|r<<8 is the
identity on the 8-bit channels modelled here.) -/
def invertPixel (p : Pixel) : Pixel :=
  { r := 255 - p.r, g := 255 - p.g, b := 255 - p.b, a := p.a }

/-- Embedding of invertImage from display/image_utils.go: same bounds, every
pixel inverted. -/
def invertImage (img : Image) : Image :=
  { img with pix := fun x y => invertPixel (img.pix x y) }

/-- Coordinate map of the 90-degree store loop, as a map of bounded
coordinates: source (x, y) of a w-by-h image lands at (h-1-y, x) in the
h-by-w canvas. -/
def coordMap90 (w h : Nat) (p : Fin w × Fin h) : Fin h × Fin w :=
  (⟨h - 1 - p.2.val, by have := p.2.isLt; omega⟩, ⟨p.1.val, p.1.isLt⟩)

/-- Coordinate map of the 180-degree store loop: (x, y) lands at
(w-1-x, h-1-y). -/
def coordMap180 (w h : Nat) (p : Fin w × Fin h) : Fin w × Fin h :=
  (⟨w - 1 - p.1.val, by have := p.1.isLt; omega⟩,
   ⟨h - 1 - p.2.val, by have := p.2.isLt; omega⟩)

/-- Coordinate map of the 270-degree store loop: (x, y) lands at
(y, w-1-x). -/
def coordMap270 (w h : Nat) (p : Fin w × Fin h) : Fin h × Fin w :=
  (⟨p.2.val, p.2.isLt⟩, ⟨w - 1 - p.1.val, by have := p.1.isLt; omega⟩)

theorem coordMap90_bijective (w h : Nat) : Function.Bijective (coordMap90 w h) := by
  constructor
  · rintro ⟨⟨x1, hx1⟩, ⟨y1, hy1⟩⟩ ⟨⟨x2, hx2⟩, ⟨y2, hy2⟩⟩ heq
    simp only [coordMap90, Prod.mk.injEq, Fin.mk.injEq] at heq
    have : y1 = y2 := by omega
    simp_all
  · rintro ⟨⟨u, hu⟩, ⟨v, hv⟩⟩
    refine ⟨(⟨v, hv⟩, ⟨h - 1 - u, by omega⟩), ?_⟩
    apply Prod.ext <;> apply Fin.ext <;> dsimp only [coordMap90] <;> omega

theorem coordMap180_bijective (w h : Nat) : Function.Bijective (coordMap180 w h) := by
  constructor
  · rintro ⟨⟨x1, hx1⟩, ⟨y1, hy1⟩⟩ ⟨⟨x2, hx2⟩, ⟨y2, hy2⟩⟩ heq
    simp only [coordMap180, Prod.mk.injEq, Fin.mk.injEq] at heq
    obtain ⟨h1, h2⟩ := heq
    have : x1 = x2 := by omega
    have : y1 = y2 := by omega
    simp_all
  · rintro ⟨⟨u, hu⟩, ⟨v, hv⟩⟩
    refine ⟨(⟨w - 1 - u, by omega⟩, ⟨h - 1 - v, by omega⟩), ?_⟩
    apply Prod.ext <;> apply Fin.ext <;> dsimp only [coordMap180] <;> omega

theorem coordMap270_bijective (w h : Nat) : Function.Bijective (coordMap270 w h) := by
  constructor
  · rintro ⟨⟨x1, hx1⟩, ⟨y1, hy1⟩⟩ ⟨⟨x2, hx2⟩, ⟨y2, hy2⟩⟩ heq
    simp only [coordMap270, Prod.mk.injEq, Fin.mk.injEq] at heq
    have : x1 = x2 := by omega
    simp_all
  · rintro ⟨⟨u, hu⟩, ⟨v, hv⟩⟩
    refine ⟨(⟨w - 1 - v, by omega⟩, ⟨u, hu⟩), ?_⟩
    apply Prod.ext <;> apply Fin.ext <;> dsimp only [coordMap270] <;> omega

theorem invertPixel_involution (p : Pixel) (h : p.wf) : invertPixel (invertPixel p) = p := by
  obtain ⟨r, g, b, a⟩ := p
  obtain ⟨hr, hg, hb, ha⟩ := h
  dsimp only at hr hg hb ha
  dsimp only [invertPixel]
  simp only [Pixel.mk.injEq, and_true]
  omega

/-- Claim C4.  Tone inversion replaces each RGB channel by 255 minus the
channel, keeps alpha, keeps the canvas size, and applying it twice restores
every well-formed pixel. -/
theorem invertImage_involution (img : Image) (x y : Nat)
    (hwf : (img.pix x y).wf) :
    (invertImage img).width = img.width ∧
    (invertImage img).height = img.height ∧
    (invertImage img).pix x y =
      Pixel.mk (255 - (img.pix x y).r) (255 - (img.pix x y).g)
        (255 - (img.pix x y).b) (img.pix x y).a ∧
    ((invertImage img).pix x y).a = (img.pix x y).a ∧
    (invertImage (invertImage img)).pix x y = img.pix x y :=
  ⟨rfl, rfl, rfl, rfl, invertPixel_involution (img.pix x y) hwf⟩

/-- Claim C4, witness at a concrete pixel. -/
theorem invertImage_involution_witness :
    (invertImage (Image.mk 1 1 (fun _ _ => Pixel.mk 10 200 0 255))).pix 0 0 =
      Pixel.mk 245 55 255 255 ∧
    (invertImage (invertImage (Image.mk 1 1 (fun _ _ => Pixel.mk 10 200 0 255)))).pix 0 0 =
      Pixel.mk 10 200 0 255 := by
  have h := invertImage_involution (Image.mk 1 1 (fun _ _ => Pixel.mk 10 200 0 255))
    0 0 (by decide)
  exact ⟨h.2.2.1, h.2.2.2.2⟩

theorem rotateImage_90 (img : Image) :
    rotateImage img 90 =
      { width := img.height, height := img.width,
        pix := fun x y => img.pix y (img.height - 1 - x) } := by
  unfold rotateImage
  norm_num

theorem rotateImage_180 (img : Image) :
    rotateImage img 180 =
      { width := img.width, height := img.height,
        pix := fun x y => img.pix (img.width - 1 - x) (img.height - 1 - y) } := by
  unfold rotateImage
  norm_num

theorem rotateImage_270 (img : Image) :
    rotateImage img 270 =
      { width := img.height, height := img.width,
        pix := fun x y => img.pix (img.width - 1 - y) x } := by
  unfold rotateImage
  norm_num

/-- Claim C5.  Rotation by 90 or 270 degrees swaps the canvas dimensions, 180
keeps them; every rotation carries each source pixel to exactly the
destination the Go loop stores it at; the three coordinate maps are
bijections of the pixel grids; and four successive 90-degree rotations
restore the original dimensions and every in-range pixel. -/
theorem rotateImage_spec (img : Image) (x y : Nat)
    (hx : x < img.width) (hy : y < img.height) :
    (rotateImage img 90).width = img.height ∧
    (rotateImage img 90).height = img.width ∧
    (rotateImage img 270).width = img.height ∧
    (rotateImage img 270).height = img.width ∧
    (rotateImage img 180).width = img.width ∧
    (rotateImage img 180).height = img.height ∧
    (rotateImage img 90).pix (img.height - 1 - y) x = img.pix x y ∧
    (rotateImage img 180).pix (img.width - 1 - x) (img.height - 1 - y) = img.pix x y ∧
    (rotateImage img 270).pix y (img.width - 1 - x) = img.pix x y ∧
    Function.Bijective (coordMap90 img.width img.height) ∧
    Function.Bijective (coordMap180 img.width img.height) ∧
    Function.Bijective (coordMap270 img.width img.height) ∧
    (rotateImage (rotateImage (rotateImage (rotateImage img 90) 90) 90) 90).width
      = img.width ∧
    (rotateImage (rotateImage (rotateImage (rotateImage img 90) 90) 90) 90).height
      = img.height ∧
    (rotateImage (rotateImage (rotateImage (rotateImage img 90) 90) 90) 90).pix x y
      = img.pix x y := by
  simp only [rotateImage_90, rotateImage_180, rotateImage_270]
  refine ⟨trivial, trivial, trivial, trivial, trivial, trivial, ?_, ?_, ?_,
    coordMap90_bijective _ _, coordMap180_bijective _ _, coordMap270_bijective _ _,
    trivial, trivial, ?_⟩
  · have h1 : img.height - 1 - (img.height - 1 - y) = y := by omega
    rw [h1]
  · have h1 : img.width - 1 - (img.width - 1 - x) = x := by omega
    have h2 : img.height - 1 - (img.height - 1 - y) = y := by omega
    rw [h1, h2]
  · have h1 : img.width - 1 - (img.width - 1 - x) = x := by omega
    rw [h1]
  · have h1 : img.width - 1 - (img.width - 1 - x) = x := by omega
    have h2 : img.height - 1 - (img.height - 1 - y) = y := by omega
    rw [h1, h2]

/-- Claim C5, witness: four 90-degree rotations of a concrete 2-by-1 image
restore its pixel (1, 0). -/
theorem rotateImage_spec_witness :
    (rotateImage (rotateImage (rotateImage (rotateImage
        (Image.mk 2 1 (fun x y => Pixel.mk x y 0 255)) 90) 90) 90) 90).pix 1 0
      = (Image.mk 2 1 (fun x y => Pixel.mk x y 0 255)).pix 1 0 :=
  (rotateImage_spec (Image.mk 2 1 (fun x y => Pixel.mk x y 0 255)) 1 0
    (by decide) (by decide)).2.2.2.2.2.2.2.2.2.2.2.2.2.2

/-- Embedding of applyImageTransformations from display/window.go.  The PNG
decoder, the PNG encoder and the randomized e-paper effect are external to
the transformation logic, so they enter as function parameters; the branch
structure is transcribed from the Go source. -/
def applyImageTransformations (decode : List Nat → Except String Image)
    (encode : Image → List Nat) (ePaperEffect : Image → Image)
    (imageData : List Nat) (rotation : Int) (darkMode ePaperMode : Bool) :
    Except String (List Nat) :=
  if rotation = 0 ∧ darkMode = false ∧ ePaperMode = false then
    Except.ok imageData
  else
    match decode imageData with
    | Except.error e => Except.error ("failed to decode image: " ++ e)
    | Except.ok img =>
      let img1 := if ePaperMode then ePaperEffect img else img
      let img2 := if rotation ≠ 0 then rotateImage img1 rotation else img1
      let img3 := if darkMode then invertImage img2 else img2
      Except.ok (encode img3)

/-- Claim C6.  The transform is the identity on the raw bytes (for every
decoder, hence without decoding) when rotation is 0 and both modes are off;
any decode failure aborts the whole transform with an error and nothing else
is applied; and on a successful decode the result is the encoding of
e-paper simulation, then rotation, then tone inversion, applied in exactly
that order, each stage only when its flag demands it. -/
theorem applyImageTransformations_pipeline (decode : List Nat → Except String Image)
    (encode : Image → List Nat) (eff : Image → Image) (imageData : List Nat)
    (rotation : Int) (darkMode ePaperMode : Bool) :
    (rotation = 0 → darkMode = false → ePaperMode = false →
      applyImageTransformations decode encode eff imageData rotation darkMode ePaperMode
        = Except.ok imageData) ∧
    (∀ e, ¬ (rotation = 0 ∧ darkMode = false ∧ ePaperMode = false) →
      decode imageData = Except.error e →
      applyImageTransformations decode encode eff imageData rotation darkMode ePaperMode
        = Except.error ("failed to decode image: " ++ e)) ∧
    (∀ img, ¬ (rotation = 0 ∧ darkMode = false ∧ ePaperMode = false) →
      decode imageData = Except.ok img →
      applyImageTransformations decode encode eff imageData rotation darkMode ePaperMode
        = Except.ok (encode
            ((fun i => if darkMode then invertImage i else i)
              ((fun i => if rotation ≠ 0 then rotateImage i rotation else i)
                ((fun i => if ePaperMode then eff i else i) img))))) := by
  refine ⟨?_, ?_, ?_⟩
  · intro h1 h2 h3
    simp [applyImageTransformations, h1, h2, h3]
  · intro e hny hdec
    rw [applyImageTransformations, if_neg hny, hdec]
  · intro img hny hdec
    rw [applyImageTransformations, if_neg hny, hdec]

/-- Claim C6, witness: with every flag off the input bytes come back even
under a decoder that rejects everything, and with dark mode on a decode
failure aborts the transform. -/
theorem applyImageTransformations_pipeline_witness :
    applyImageTransformations (fun _ => Except.error "bad") (fun _ => []) id
        [1, 2, 3] 0 false false = Except.ok [1, 2, 3] ∧
    applyImageTransformations (fun _ => Except.error "bad") (fun _ => []) id
        [1, 2, 3] 0 true false
      = Except.error ("failed to decode image: " ++ "bad") :=
  ⟨(applyImageTransformations_pipeline (fun _ => Except.error "bad") (fun _ => []) id
      [1, 2, 3] 0 false false).1 rfl rfl rfl,
   (applyImageTransformations_pipeline (fun _ => Except.error "bad") (fun _ => []) id
      [1, 2, 3] 0 true false).2.1 "bad" (by simp) rfl⟩

/-! ## api/client.go : setup and display fetches

An HTTP exchange is an environment input: either a transport error or a
status code together with the decoded body.  A field carrying the Go
omitempty convention is an Option; the Go JSON decoder maps an absent field
to the zero value, here Option.getD 0 (or the empty string). -/

/-- Outcome of one HTTP round trip whose body decodes to α; the body is none
when the JSON decoder rejects it. -/
inductive HttpOutcome (α : Type) where
  | netErr (msg : String)
  | response (statusCode : Nat) (body : Option α)

/-- JSON body of /api/setup, mirroring SetupResponse of api/client.go.  All
fields are omitempty; the numeric status is kept as an Option so that an
absent field is distinguishable in the model, with decoding to the Go zero
value made explicit at the use site. -/
structure SetupBody where
  status : Option Int
  apiKey : String
  imageURL : String
  message : String
  friendlyID : String

/-- Embedding of FetchSetup from api/client.go, as a function of the HTTP
outcome.  The Go decoder turns an absent status field into 0, and the code
then accepts exactly status 0 or 200; any other value yields the error built
from the message field.  On success the caller receives the full decoded
body (api_key and friendly_id included). -/
def FetchSetup (outcome : HttpOutcome SetupBody) : Except String SetupBody :=
  match outcome with
  | HttpOutcome.netErr e => Except.error ("setup request failed: " ++ e)
  | HttpOutcome.response code body =>
    if code ≠ 200 then
      Except.error ("setup API returned status " ++ toString code)
    else
      match body with
      | none => Except.error ("failed to decode setup response")
      | some b =>
        let st := b.status.getD 0
        if st ≠ 0 ∧ st ≠ 200 then
          Except.error ("setup failed: " ++ b.message ++ " (status " ++ toString st ++ ")")
        else
          Except.ok b

/-- Claim C2, counterexample.  The claim says an HTTP-200 response whose
well-formed body has no status field must produce an error; the code treats
the absent field (decoded to the Go zero value 0) as success and returns the
credentials. -/
theorem fetchSetup_absent_status_succeeds :
    FetchSetup (HttpOutcome.response 200
        (some (SetupBody.mk none "key-1" "" "ok" "friendly-1")))
      = Except.ok (SetupBody.mk none "key-1" "" "ok" "friendly-1") := by
  rfl

/-- Claim C2, amended.  Given an HTTP-200 response with a well-formed body,
FetchSetup fails exactly when the decoded status (absent decodes to 0) is
neither 0 nor 200; the error carries the body message; and on success the
api_key and friendly_id of the body are returned. -/
theorem fetchSetup_status_check (b : SetupBody) :
    ((∃ e, FetchSetup (HttpOutcome.response 200 (some b)) = Except.error e) ↔
      (b.status.getD 0 ≠ 0 ∧ b.status.getD 0 ≠ 200)) ∧
    (b.status.getD 0 ≠ 0 → b.status.getD 0 ≠ 200 →
      FetchSetup (HttpOutcome.response 200 (some b))
        = Except.error ("setup failed: " ++ b.message ++ " (status "
            ++ toString (b.status.getD 0) ++ ")")) ∧
    ((b.status.getD 0 = 0 ∨ b.status.getD 0 = 200) →
      FetchSetup (HttpOutcome.response 200 (some b)) = Except.ok b ∧
      ∃ r, FetchSetup (HttpOutcome.response 200 (some b)) = Except.ok r ∧
        r.apiKey = b.apiKey ∧ r.friendlyID = b.friendlyID) := by
  refine ⟨?_, ?_, ?_⟩
  · constructor
    · rintro ⟨e, he⟩
      by_contra hno
      rw [FetchSetup] at he
      simp only [if_neg] at he
      rw [if_neg (by omega), if_neg hno] at he
      exact Except.noConfusion he
    · intro hbad
      refine ⟨"setup failed: " ++ b.message ++ " (status "
          ++ toString (b.status.getD 0) ++ ")", ?_⟩
      rw [FetchSetup]
      simp only []
      rw [if_neg (by omega), if_pos hbad]
  · intro h1 h2
    rw [FetchSetup]
    simp only []
    rw [if_neg (by omega), if_pos ⟨h1, h2⟩]
  · intro hok
    have hne : ¬ (b.status.getD 0 ≠ 0 ∧ b.status.getD 0 ≠ 200) := by
      rcases hok with h | h <;> simp [h]
    have : FetchSetup (HttpOutcome.response 200 (some b)) = Except.ok b := by
      rw [FetchSetup]
      simp only []
      rw [if_neg (by omega), if_neg hne]
    exact ⟨this, b, this, rfl, rfl⟩

/-- Claim C2, witness for the amended statement at a concrete body. -/
theorem fetchSetup_status_check_witness :
    FetchSetup (HttpOutcome.response 200
        (some (SetupBody.mk (some 404) "k" "" "device not found" "f")))
      = Except.error ("setup failed: " ++ "device not found" ++ " (status "
          ++ toString ((404 : Int)) ++ ")") :=
  (fetchSetup_status_check (SetupBody.mk (some 404) "k" "" "device not found" "f")).2.1
    (by decide) (by decide)

/-- Decoded TerminalResponse of api/client.go after the Go JSON decoder ran:
all fields carry their decoded values (absent numeric fields already turned
into 0, absent strings into the empty string). -/
structure TerminalResponse where
  imageURL : String
  filename : String
  refreshRate : Int
  status : Int
  error : String
deriving DecidableEq, Repr

/-- Raw JSON body of /api/display with optional fields still distinguishable
from their Go zero values. -/
structure DisplayBody where
  imageURL : String
  filename : String
  refreshRate : Option Int
  status : Option Int
  error : Option String

/-- Client state from api/client.go: the only mutable field read and written
by FetchDisplay is the remembered refresh rate. -/
structure Client where
  refreshRate : Int

/-- Embedding of NewClient from api/client.go: the refresh rate starts at the
default 60. -/
def NewClient : Client := { refreshRate := 60 }

/-- Result of one FetchDisplay call: the Refresh-Rate header value the request
carried, the response handed to the caller and the updated client state. -/
structure FetchDisplayResult where
  sentRefreshRateHeader : Int
  result : Except String TerminalResponse
  client : Client

/-- Embedding of FetchDisplay from api/client.go, as a function of the HTTP
outcome.  The request carries the remembered refresh rate in its
Refresh-Rate header (the other headers do not feed back into this state and
are elided); a non-200 response or a decode failure produces an error and
leaves the client untouched; on success a zero (or absent, decoded to zero)
refresh_rate is replaced by 60 and the resulting rate is stored for the next
request. -/
def FetchDisplay (c : Client) (outcome : HttpOutcome DisplayBody) : FetchDisplayResult :=
  match outcome with
  | HttpOutcome.netErr e =>
      ⟨c.refreshRate, Except.error ("request failed: " ++ e), c⟩
  | HttpOutcome.response code body =>
    if code ≠ 200 then
      ⟨c.refreshRate, Except.error ("API returned status " ++ toString code), c⟩
    else
      match body with
      | none => ⟨c.refreshRate, Except.error ("failed to decode response"), c⟩
      | some b =>
        let decoded : TerminalResponse :=
          ⟨b.imageURL, b.filename, b.refreshRate.getD 0, b.status.getD 0, b.error.getD ""⟩
        let final :=
          if decoded.refreshRate = 0 then { decoded with refreshRate := 60 } else decoded
        ⟨c.refreshRate, Except.ok final, { c with refreshRate := final.refreshRate }⟩

theorem fetchDisplay_sent (c : Client) (o : HttpOutcome DisplayBody) :
    (FetchDisplay c o).sentRefreshRateHeader = c.refreshRate := by
  cases o with
  | netErr e => rfl
  | response code body =>
    rw [FetchDisplay.eq_def]
    dsimp only
    by_cases hc : code ≠ 200
    · rw [if_pos hc]
    · rw [if_neg hc]
      cases body with
      | none => rfl
      | some b => rfl

theorem fetchDisplay_ok_stores (c : Client) (o : HttpOutcome DisplayBody)
    (t : TerminalResponse) (hok : (FetchDisplay c o).result = Except.ok t) :
    ((FetchDisplay c o).client).refreshRate = t.refreshRate := by
  cases o with
  | netErr e =>
    rw [FetchDisplay.eq_def] at hok
    dsimp only at hok
    simp at hok
  | response code body =>
    rw [FetchDisplay.eq_def] at hok ⊢
    dsimp only at hok ⊢
    by_cases hc : code ≠ 200
    · rw [if_pos hc] at hok
      simp at hok
    · rw [if_neg hc] at hok ⊢
      cases body with
      | none => simp at hok
      | some b =>
        dsimp only at hok ⊢
        simp only [Except.ok.injEq] at hok
        rw [← hok]

/-- Claim C9.  A fresh client remembers 60; every request sends the
remembered rate in its Refresh-Rate header (so 60 before any server value);
a successful fetch whose body omits refresh_rate or carries 0 yields a
response with rate 60; and after any successful fetch the returned rate is
stored and sent on the next request. -/
theorem fetchDisplay_refresh_rate_echo :
    NewClient.refreshRate = 60 ∧
    (∀ c o, (FetchDisplay c o).sentRefreshRateHeader = c.refreshRate) ∧
    (∀ o, (FetchDisplay NewClient o).sentRefreshRateHeader = 60) ∧
    (∀ c b, b.refreshRate = none ∨ b.refreshRate = some 0 →
      ∃ t, (FetchDisplay c (HttpOutcome.response 200 (some b))).result = Except.ok t ∧
        t.refreshRate = 60) ∧
    (∀ c o t, (FetchDisplay c o).result = Except.ok t →
      ((FetchDisplay c o).client).refreshRate = t.refreshRate ∧
      ∀ o2, (FetchDisplay ((FetchDisplay c o).client) o2).sentRefreshRateHeader
        = t.refreshRate) := by
  refine ⟨rfl, fetchDisplay_sent, fun o => fetchDisplay_sent NewClient o, ?_, ?_⟩
  · intro c b hb
    have hrr : b.refreshRate.getD 0 = 0 := by rcases hb with h | h <;> simp [h]
    refine ⟨⟨b.imageURL, b.filename, 60, b.status.getD 0, b.error.getD ""⟩, ?_, rfl⟩
    rw [FetchDisplay, if_neg (by omega)]
    simp [hrr]
  · intro c o t hok
    exact ⟨fetchDisplay_ok_stores c o t hok,
      fun o2 => by rw [fetchDisplay_sent, fetchDisplay_ok_stores c o t hok]⟩

/-- Claim C9, witness: a fresh client receiving a body with no refresh_rate
field gets back the default 60. -/
theorem fetchDisplay_refresh_rate_echo_witness :
    ∃ t, (FetchDisplay NewClient (HttpOutcome.response 200
        (some (DisplayBody.mk "u" "f" none none none)))).result = Except.ok t ∧
      t.refreshRate = 60 :=
  fetchDisplay_refresh_rate_echo.2.2.2.1 NewClient
    (DisplayBody.mk "u" "f" none none none) (Or.inl rfl)

/-! ## app.go : one refresh cycle (fetchAndDisplay) -/

/-- The per-cycle mutable state of App that fetchAndDisplay reads or
writes. -/
structure AppState where
  mirrorMode : Bool
  lastImageData : Option (List Nat)
  isConnected : Bool

/-- Environment of one refresh cycle: the outcome of the display-metadata
fetch (FetchDisplay or FetchCurrentScreen), of the image download
(FetchImage) and of the render (window.UpdateImage), each supplied by the
network and windowing collaborators. -/
structure CycleEnv where
  displayResult : Except String TerminalResponse
  imageResult : Except String (List Nat)
  renderResult : Except String Unit

/-- Observable outcome of one fetchAndDisplay call: the returned refresh
interval in seconds, the status string passed to UpdateStatus, the error
frame passed to showErrorScreen (none on success), and the new App state. -/
structure CycleOutcome where
  refreshRate : Int
  status : String
  errorFrame : Option (String × String)
  app : AppState

/-- Embedding of fetchAndDisplay from app.go (the GUI build with manual
triggers).  Branches, status strings, error-frame titles and the returned
intervals are transcribed from the source; the timestamps of the success
status are elided.  Logging calls have no effect on this state and are
dropped. -/
def fetchAndDisplay (a : AppState) (env : CycleEnv) : CycleOutcome :=
  match env.displayResult with
  | Except.error e =>
      ⟨60, "Error: " ++ e,
        some ("Connection Error", "Failed to connect to server: " ++ e), a⟩
  | Except.ok termResp =>
    if termResp.error ≠ "" then
      ⟨60, "API Error: " ++ termResp.error, some ("API Error", termResp.error), a⟩
    else
      match env.imageResult with
      | Except.error e =>
          ⟨termResp.refreshRate, "Error downloading image: " ++ e,
            some ("Download Error", "Could not download image: " ++ e), a⟩
      | Except.ok imageData =>
        let a2 := { a with lastImageData := some imageData }
        match env.renderResult with
        | Except.error e =>
            ⟨termResp.refreshRate, "Error displaying image: " ++ e,
              some ("Display Error", "Could not render image: " ++ e), a2⟩
        | Except.ok _ =>
            ⟨termResp.refreshRate,
              (if a.mirrorMode then "[Mirror] " else "") ++ "Last updated",
              none, { a2 with isConnected := true }⟩

/-- Claim C1, counterexample.  A cycle whose display fetch succeeds with
refresh rate 30 but whose image download fails is a failing cycle (it
renders a Download Error frame and an error status), yet the next retry is
scheduled 30 seconds later, not 60. -/
theorem fetchAndDisplay_download_failure_keeps_server_rate :
    (fetchAndDisplay (AppState.mk false none false)
        (CycleEnv.mk (Except.ok (TerminalResponse.mk "http://x/img.png" "f" 30 200 ""))
          (Except.error "connection reset") (Except.ok ()))).refreshRate = 30 ∧
    (fetchAndDisplay (AppState.mk false none false)
        (CycleEnv.mk (Except.ok (TerminalResponse.mk "http://x/img.png" "f" 30 200 ""))
          (Except.error "connection reset") (Except.ok ()))).errorFrame
      = some ("Download Error", "Could not download image: " ++ "connection reset") ∧
    (fetchAndDisplay (AppState.mk false none false)
        (CycleEnv.mk (Except.ok (TerminalResponse.mk "http://x/img.png" "f" 30 200 ""))
          (Except.error "connection reset") (Except.ok ()))).status
      = "Error downloading image: " ++ "connection reset" := by
  refine ⟨?_, ?_, ?_⟩ <;> rfl

/-- Claim C1, amended.  Every failing refresh cycle renders an error frame
and sets a status string describing the failure; cycles failing at the
display-metadata fetch or receiving an API error body schedule the retry
exactly 60 seconds later regardless of any refresh interval, while cycles
failing at the image download or at rendering schedule it at the refresh
rate carried by the successful display response of the same cycle. -/
theorem fetchAndDisplay_error_paths (a : AppState) (env : CycleEnv) :
    (∀ e, env.displayResult = Except.error e →
      fetchAndDisplay a env =
        ⟨60, "Error: " ++ e,
          some ("Connection Error", "Failed to connect to server: " ++ e), a⟩) ∧
    (∀ t, env.displayResult = Except.ok t → t.error ≠ "" →
      fetchAndDisplay a env =
        ⟨60, "API Error: " ++ t.error, some ("API Error", t.error), a⟩) ∧
    (∀ t e, env.displayResult = Except.ok t → t.error = "" →
      env.imageResult = Except.error e →
      fetchAndDisplay a env =
        ⟨t.refreshRate, "Error downloading image: " ++ e,
          some ("Download Error", "Could not download image: " ++ e), a⟩) ∧
    (∀ t d e, env.displayResult = Except.ok t → t.error = "" →
      env.imageResult = Except.ok d → env.renderResult = Except.error e →
      fetchAndDisplay a env =
        ⟨t.refreshRate, "Error displaying image: " ++ e,
          some ("Display Error", "Could not render image: " ++ e),
          { a with lastImageData := some d }⟩) := by
  refine ⟨?_, ?_, ?_, ?_⟩
  · intro e he
    rw [fetchAndDisplay.eq_def, he]
  · intro t ht hterr
    rw [fetchAndDisplay.eq_def, ht]
    dsimp only
    rw [if_pos hterr]
  · intro t e ht hterr himg
    rw [fetchAndDisplay.eq_def, ht]
    dsimp only
    rw [if_neg (by simp [hterr]), himg]
  · intro t d e ht hterr himg hrend
    rw [fetchAndDisplay.eq_def, ht]
    dsimp only
    rw [if_neg (by simp [hterr]), himg]
    dsimp only
    rw [hrend]

/-- Claim C1, witness: a cycle whose display fetch fails with a transport
error arms the 60-second retry and renders a Connection Error frame. -/
theorem fetchAndDisplay_error_paths_witness :
    fetchAndDisplay (AppState.mk false none false)
        (CycleEnv.mk (Except.error "http 500") (Except.error "skipped") (Except.ok ()))
      = ⟨60, "Error: " ++ "http 500",
          some ("Connection Error", "Failed to connect to server: " ++ "http 500"),
          AppState.mk false none false⟩ :=
  (fetchAndDisplay_error_paths (AppState.mk false none false)
      (CycleEnv.mk (Except.error "http 500") (Except.error "skipped") (Except.ok ()))).1
    "http 500" rfl

/-! ## app.go : manual trigger coalescing and the rotate action -/

/-- Non-blocking send on a Go channel of capacity one, as performed by the
select-with-default in the SetOnRefresh and SetOnRotate handlers of
runGUIApp: the element is enqueued when there is room, dropped when the
buffer already holds one. -/
def trySend (n : Nat) : Nat :=
  if n < 1 then n + 1 else n

/-- Events acting on the two trigger channels: a handler fires a trigger, or
the refresh loop receives (and thereby consumes) a pending one. -/
inductive TriggerEvent where
  | fireRefresh
  | fireRotate
  | takeRefresh
  | takeRotate

/-- Occupancy of the two capacity-one trigger channels created in runGUIApp
(refreshCh and rotateCh, both buffered with capacity 1). -/
structure TriggerChannels where
  refreshPending : Nat
  rotatePending : Nat

/-- One step of the trigger machinery: fires use the non-blocking send, the
loop receive removes one pending element. -/
def stepTrigger (s : TriggerChannels) : TriggerEvent → TriggerChannels
  | TriggerEvent.fireRefresh => { s with refreshPending := trySend s.refreshPending }
  | TriggerEvent.fireRotate => { s with rotatePending := trySend s.rotatePending }
  | TriggerEvent.takeRefresh => { s with refreshPending := s.refreshPending - 1 }
  | TriggerEvent.takeRotate => { s with rotatePending := s.rotatePending - 1 }

/-- Both channels start empty and the whole history is a fold over the
events that touched them. -/
def runTriggers (es : List TriggerEvent) : TriggerChannels :=
  es.foldl stepTrigger ⟨0, 0⟩

theorem stepTrigger_inv (s : TriggerChannels) (e : TriggerEvent)
    (h : s.refreshPending ≤ 1 ∧ s.rotatePending ≤ 1) :
    (stepTrigger s e).refreshPending ≤ 1 ∧ (stepTrigger s e).rotatePending ≤ 1 := by
  obtain ⟨h1, h2⟩ := h
  cases e <;> simp only [stepTrigger, trySend] <;> constructor <;>
    first
    | exact h1
    | exact h2
    | (dsimp only; split <;> omega)
    | (dsimp only; omega)

theorem foldl_trigger_inv (es : List TriggerEvent) (s : TriggerChannels)
    (h : s.refreshPending ≤ 1 ∧ s.rotatePending ≤ 1) :
    (es.foldl stepTrigger s).refreshPending ≤ 1 ∧
      (es.foldl stepTrigger s).rotatePending ≤ 1 := by
  induction es generalizing s with
  | nil => exact h
  | cons e es ih => exact ih (stepTrigger s e) (stepTrigger_inv s e h)

/-- Claim C7.  A trigger firing while one of the same kind is pending is
dropped unchanged, and along every event history, starting from empty
channels, at most one refresh and at most one rotate trigger is pending. -/
theorem trigger_coalescing :
    (∀ s : TriggerChannels, s.refreshPending = 1 →
      stepTrigger s TriggerEvent.fireRefresh = s) ∧
    (∀ s : TriggerChannels, s.rotatePending = 1 →
      stepTrigger s TriggerEvent.fireRotate = s) ∧
    (∀ es : List TriggerEvent,
      (runTriggers es).refreshPending ≤ 1 ∧ (runTriggers es).rotatePending ≤ 1) := by
  refine ⟨?_, ?_, ?_⟩
  · intro s h
    cases s
    simp_all [stepTrigger, trySend]
  · intro s h
    cases s
    simp_all [stepTrigger, trySend]
  · intro es
    exact foldl_trigger_inv es ⟨0, 0⟩ ⟨Nat.zero_le 1, Nat.zero_le 1⟩

/-- Claim C7, witness: two back-to-back refresh fires leave one pending
event, the second is dropped. -/
theorem trigger_coalescing_witness :
    stepTrigger (TriggerChannels.mk 1 0) TriggerEvent.fireRefresh
      = TriggerChannels.mk 1 0 ∧
    (runTriggers [TriggerEvent.fireRefresh, TriggerEvent.fireRefresh]).refreshPending ≤ 1 :=
  ⟨trigger_coalescing.1 (TriggerChannels.mk 1 0) rfl,
    (trigger_coalescing.2.2 [TriggerEvent.fireRefresh, TriggerEvent.fireRefresh]).1⟩

/-- Render-relevant fields of the runtime config.Config in the GUI build.
The rotate handler only ever writes the rotation; the other flags are
carried to state that they are untouched. -/
structure RenderConfig where
  rotation : Int
  darkMode : Bool
  ePaper : Bool

/-- Result of one rotateDisplay call: the new config and whether it was
pushed to the config store (config.Save is called unconditionally). -/
structure RotateOutcome where
  config : RenderConfig
  saved : Bool

/-- Successor function of the rotation cycle in rotateDisplay of app.go:
0, 90, 180 and 270 step forward, any other value resets to 0. -/
def nextRotation (r : Int) : Int :=
  if r = 0 then 90
  else if r = 90 then 180
  else if r = 180 then 270
  else if r = 270 then 0
  else 0

/-- Embedding of rotateDisplay from app.go: advance the rotation one step
along the cycle, persist the config, leave everything else unchanged. -/
def rotateDisplay (c : RenderConfig) : RotateOutcome :=
  ⟨{ c with rotation := nextRotation c.rotation }, true⟩

/-- Claim C8.  Each processed rotate action advances the rotation exactly one
step along 0, 90, 180, 270 and back (values outside the cycle reset to 0),
persists the new config, leaves dark mode and e-paper untouched, and always
lands on one of the four right angles. -/
theorem rotateDisplay_spec (c : RenderConfig) :
    nextRotation 0 = 90 ∧ nextRotation 90 = 180 ∧ nextRotation 180 = 270 ∧
    nextRotation 270 = 0 ∧
    (c.rotation ≠ 0 → c.rotation ≠ 90 → c.rotation ≠ 180 → c.rotation ≠ 270 →
      (rotateDisplay c).config.rotation = 0) ∧
    (rotateDisplay c).config.rotation = nextRotation c.rotation ∧
    (rotateDisplay c).config.darkMode = c.darkMode ∧
    (rotateDisplay c).config.ePaper = c.ePaper ∧
    (rotateDisplay c).saved = true ∧
    ((rotateDisplay c).config.rotation = 0 ∨ (rotateDisplay c).config.rotation = 90 ∨
      (rotateDisplay c).config.rotation = 180 ∨ (rotateDisplay c).config.rotation = 270) := by
  refine ⟨rfl, rfl, rfl, rfl, ?_, rfl, rfl, rfl, rfl, ?_⟩
  · intro h0 h90 h180 h270
    simp only [rotateDisplay, nextRotation]
    rw [if_neg h0, if_neg h90, if_neg h180, if_neg h270]
  · simp only [rotateDisplay, nextRotation]
    by_cases h0 : c.rotation = 0
    · rw [if_pos h0]; right; left; rfl
    rw [if_neg h0]
    by_cases h90 : c.rotation = 90
    · rw [if_pos h90]; right; right; left; rfl
    rw [if_neg h90]
    by_cases h180 : c.rotation = 180
    · rw [if_pos h180]; right; right; right; rfl
    rw [if_neg h180]
    by_cases h270 : c.rotation = 270
    · rw [if_pos h270]; left; rfl
    · rw [if_neg h270]; left; rfl

/-- Claim C8, witness: rotating at the out-of-cycle value 45 resets to 0, and
rotating at 270 keeps the dark-mode flag. -/
theorem rotateDisplay_spec_witness :
    (rotateDisplay (RenderConfig.mk 45 false true)).config.rotation = 0 ∧
    (rotateDisplay (RenderConfig.mk 270 true false)).config.darkMode = true :=
  ⟨(rotateDisplay_spec (RenderConfig.mk 45 false true)).2.2.2.2.1
      (by decide) (by decide) (by decide) (by decide),
    (rotateDisplay_spec (RenderConfig.mk 270 true false)).2.2.2.2.2.2.1⟩

end Trmnl
